import Mathlib

/-!
Verification of the orchestration core of the AzureAgent repository:
auth token cache (`azure_tools/auth.py`), shared context store
(`DAPEAgent/azure/shared_tools.py`), memoizing handler factory
(`DAPEAgent/utils/azure_adapters.py`), guardrail gate
(`DAPEAgent/triage_agent.py`) and MCP tool filters
(`DAPEAgent/azure/mcp/azure_mcp_agent.py`, `DAPEAgent/mcp/azure_mcp_agent.py`).
Python code is shallowly embedded as pure Lean functions; mutable module or
object state is passed explicitly; object identity of constructed handlers is
modelled by a monotonically increasing numeric id.
-/

/-! ## String helpers (Python `str.lower` and the `in` substring test) -/

/-- ASCII lowercase of one character, as Python `str.lower` does on ASCII. -/
def lowerChar (c : Char) : Char :=
  if 65 ≤ c.toNat ∧ c.toNat ≤ 90 then Char.ofNat (c.toNat + 32) else c

/-- ASCII lowercase of a string (Python `input_text.lower()`). -/
def lowerStr (s : String) : String :=
  ⟨s.data.map lowerChar⟩

/-- Does `hay` start with `needle` (character lists)? -/
def listStartsWith : List Char → List Char → Bool
  | [], _ => true
  | _ :: _, [] => false
  | a :: as, b :: bs => a == b && listStartsWith as bs

/-- Does `hay` contain `needle` as a contiguous run (character lists)? -/
def listHasSub (needle : List Char) : List Char → Bool
  | [] => needle.isEmpty
  | b :: bs => listStartsWith needle (b :: bs) || listHasSub needle bs

/-- Python's `needle in hay` substring test. -/
def strIn (needle hay : String) : Bool :=
  listHasSub needle.data hay.data

/-- Python truthiness of an optional string: `None` and `""` are falsy. -/
def truthyS : Option String → Bool
  | none => false
  | some s => !(s == "")

/-- `any(phrase in text for phrase in phrases)` from the guardrail code. -/
def anyIn (phrases : List String) (text : String) : Bool :=
  phrases.any (fun p => strIn p text)

/-! ## Auth token cache (`azure_tools/auth.py`, class `AzureAuthentication`)

Timestamps are integers (seconds); `datetime.timedelta(minutes=5)` is the
constant 300.  The external credential provider
(`self.credential.get_token(...)`) is an external collaborator: each call to
`get_token` receives the `TokenResponse` the provider would return if it were
consulted, and reports in its third component whether it actually consulted it
(`True` exactly when the source prints "Generating new token..." and calls
`credential.get_token`). -/

/-- The provider's answer: `token` and the reported `expires_on` timestamp. -/
structure TokenResponse where
  token : String
  expires_on : Int
deriving DecidableEq

/-- The mutable fields `self.token` and `self.token_expiry` of
`AzureAuthentication`.  As in the source, `token_expiry` stores
`expires_on - 5 minutes`, i.e. the reported expiry with the skew already
subtracted. -/
structure AuthState where
  token : Option String
  token_expiry : Option Int
deriving DecidableEq

/-- State after `AzureAuthentication.__init__`: no token, no expiry. -/
def authInit : AuthState := ⟨none, none⟩

/-- `AzureAuthentication.get_token`.  Returns the token string, the updated
object state, and whether the underlying credential was consulted. -/
def get_token (s : AuthState) (now : Int) (fresh : TokenResponse) :
    String × AuthState × Bool :=
  match s.token, s.token_expiry with
  | some t, some e =>
      if now ≥ e then
        (fresh.token, ⟨some fresh.token, some (fresh.expires_on - 300)⟩, true)
      else
        (t, s, false)
  | _, _ =>
      (fresh.token, ⟨some fresh.token, some (fresh.expires_on - 300)⟩, true)

/-! ## Context store (`DAPEAgent/config.py` dataclass `AzureCtx` and
`DAPEAgent/azure/shared_tools.py` tool `set_azure_context`)

The `auth : Optional[AzureAuthentication]` field is modelled by a boolean
(`none` / `some _`), since `set_azure_context` only tests it for `None` and
replaces it by a fresh instance. -/

/-- The conversation-scoped context record from `DAPEAgent/config.py`. -/
structure AzureCtxConfig where
  subscription_id : Option String := none
  resource_group_name : Option String := none
  resource_name : Option String := none
  intent : Option String := none
  auth : Bool := false
deriving DecidableEq

/-- Fresh context at the start of a conversation. -/
def azureCtxConfigInit : AzureCtxConfig := ⟨none, none, none, none, false⟩

/-- One per-field step of `set_azure_context`: keep a truthy current value
(recording it under `already_available`), otherwise write a non-`None`
argument (recording it under `newly_set`), otherwise leave the field alone.
Returns (new field value, already_available entries, newly_set entries). -/
def ctxFieldStep (label : String) (cur arg : Option String) :
    Option String × List String × List String :=
  if truthyS cur then (cur, [label ++ cur.getD ""], [])
  else
    match arg with
    | some v => (some v, [], [label ++ v])
    | none => (cur, [], [])

/-- The field value produced by one `set_azure_context` call for one field. -/
def setField (cur arg : Option String) : Option String :=
  if truthyS cur then cur
  else
    match arg with
    | some v => some v
    | none => cur

/-- `set_azure_context` from `DAPEAgent/azure/shared_tools.py`: updates the
four fields in order, initialises `auth` when absent, and returns the new
context together with the `already_available` and `newly_set` report lists
(the returned status string is the concatenation of these report lines). -/
def set_azure_context (c : AzureCtxConfig)
    (subscription_id resource_group_name resource_name intent : Option String) :
    AzureCtxConfig × List String × List String :=
  let s1 := ctxFieldStep "Subscription ID: " c.subscription_id subscription_id
  let s2 := ctxFieldStep "Resource Group: " c.resource_group_name resource_group_name
  let s3 := ctxFieldStep "Resource Name: " c.resource_name resource_name
  let s4 := ctxFieldStep "Intent: " c.intent intent
  (⟨s1.1, s2.1, s3.1, s4.1, true⟩,
   s1.2.1 ++ s2.2.1 ++ s3.2.1 ++ s4.2.1,
   s1.2.2 ++ s2.2.2 ++ s3.2.2 ++ s4.2.2)

/-- The four optional arguments of one `set_azure_context` call. -/
structure CtxArgs where
  subscription_id : Option String := none
  resource_group_name : Option String := none
  resource_name : Option String := none
  intent : Option String := none
deriving DecidableEq

/-- Apply one `set_azure_context` call, keeping only the mutated context. -/
def applyCall (c : AzureCtxConfig) (a : CtxArgs) : AzureCtxConfig :=
  (set_azure_context c a.subscription_id a.resource_group_name a.resource_name a.intent).1

/-- Apply a whole conversation's sequence of `set_azure_context` calls to a
fresh context store. -/
def applyCalls (calls : List CtxArgs) : AzureCtxConfig :=
  calls.foldl applyCall azureCtxConfigInit

/-- The first non-empty (non-`None`, non-`""`) argument in a sequence. -/
def firstNonEmptyArg : List (Option String) → Option String
  | [] => none
  | none :: rest => firstNonEmptyArg rest
  | some v :: rest => if v = "" then firstNonEmptyArg rest else some v

/-! ## Handler factory (`DAPEAgent/utils/azure_adapters.py`)

The dataclass `AzureCtx` of that module, `_extract_context_values`,
`_make_cache_key`, the module-level `_resource_handler_cache` dict and
`get_resource_handler`.  The nine `azure_tools` constructor classes are
external SDK wrappers; constructing one always yields a brand-new Python
object, which we model by handing out a fresh numeric id from a counter, so
"same object identity" is id equality.  The cache dict and the counter
together form the explicit `FactoryState`. -/

/-- The factory-side context dataclass (`AzureCtx` in
`DAPEAgent/utils/azure_adapters.py`). -/
structure AzureCtx where
  subscription_id : Option String := none
  subscription_name : Option String := none
  resource_group_name : Option String := none
  resource_name : Option String := none
  pool_name : Option String := none
deriving DecidableEq

/-- One dict entry per non-`None` field, in dataclass field order. -/
def optEntry (n : String) : Option String → List (String × String)
  | none => []
  | some v => [(n, v)]

/-- `_extract_context_values`: the dict of non-`None` fields of the context,
in insertion (= field) order. -/
def _extract_context_values (c : AzureCtx) : List (String × String) :=
  optEntry "subscription_id" c.subscription_id ++
  optEntry "subscription_name" c.subscription_name ++
  optEntry "resource_group_name" c.resource_group_name ++
  optEntry "resource_name" c.resource_name ++
  optEntry "pool_name" c.pool_name

/-- Strict lexicographic order on character lists by code point, i.e.
Python's `<` on strings. -/
def listCharLt : List Char → List Char → Bool
  | [], [] => false
  | [], _ :: _ => true
  | _ :: _, [] => false
  | a :: as, b :: bs => a.toNat < b.toNat || (a == b && listCharLt as bs)

/-- Python's `<` on strings (lexicographic by code point). -/
def strLt (a b : String) : Bool :=
  listCharLt a.data b.data

/-- Python's ascending lexicographic order on `(key, value)` string pairs,
as used by `sorted(context_values.items())`. -/
def pairLe (p q : String × String) : Bool :=
  strLt p.1 q.1 || (p.1 == q.1 && !(strLt q.2 p.2))

/-- Insert a pair into an already sorted list (insertion sort step). -/
def insertPair (p : String × String) :
    List (String × String) → List (String × String)
  | [] => [p]
  | q :: rest => if pairLe p q then p :: q :: rest else q :: insertPair p rest

/-- `sorted(...)` on a list of `(key, value)` pairs. -/
def sortPairs : List (String × String) → List (String × String)
  | [] => []
  | p :: rest => insertPair p (sortPairs rest)

/-- `_make_cache_key`: the resource key together with the sorted items of the
context-value dict. -/
def _make_cache_key (key : String) (context_values : List (String × String)) :
    String × List (String × String) :=
  (key, sortPairs context_values)

/-- `dict.get(n)` on the context-value dict. -/
def dictGet (n : String) : List (String × String) → Option String
  | [] => none
  | p :: rest => if p.1 = n then some p.2 else dictGet n rest

/-- The nine registered handler kinds (the `ResourceKey` literal type and the
`if`/`elif` dispatch chain of `get_resource_handler`). -/
def registeredKeys : List String :=
  ["adf.linked_services", "adf.triggers", "adf.pipelines",
   "adf.integration_runtime", "adf.managed_pe", "batch.pool", "keyvault",
   "locks", "subscription_resource"]

/-- A handler cache key: kind tag plus sorted context items. -/
abbrev HandlerCacheKey := String × List (String × String)

/-- The module-level `_resource_handler_cache` dict plus the id counter that
models Python object identity of constructed handlers. -/
structure FactoryState where
  cache : List (HandlerCacheKey × Nat)
  nextId : Nat
deriving DecidableEq

/-- The empty cache at module import time. -/
def factoryInit : FactoryState := ⟨[], 0⟩

/-- The two `ValueError` shapes `get_resource_handler` can raise. -/
inductive FactoryError where
  | missingParameter
  | unknownHandlerKind
deriving DecidableEq

/-- Dict lookup in the handler cache (`cache_key in _resource_handler_cache`
followed by indexing). -/
def findCache (k : HandlerCacheKey) : List (HandlerCacheKey × Nat) → Option Nat
  | [] => none
  | e :: rest => if e.1 = k then some e.2 else findCache k rest

/-- `get_resource_handler(key, ctx)` (the `ctx`-object call path, no extra
keyword arguments): computes the cache key, returns a cached handler on a
hit, otherwise constructs a fresh handler for a registered kind — raising
`ValueError` for `batch.pool` without a truthy `pool_name` — and raises
`ValueError` for an unknown kind.  The handler is the returned `Nat` id. -/
def get_resource_handler (key : String) (ctx : AzureCtx) (s : FactoryState) :
    Except FactoryError (Nat × FactoryState) :=
  let context_values := _extract_context_values ctx
  let cache_key := _make_cache_key key context_values
  match findCache cache_key s.cache with
  | some h => .ok (h, s)
  | none =>
      if key ∈ registeredKeys then
        if key = "batch.pool" ∧ ¬ truthyS (dictGet "pool_name" context_values) then
          .error .missingParameter
        else
          .ok (s.nextId, ⟨(cache_key, s.nextId) :: s.cache, s.nextId + 1⟩)
      else
        .error .unknownHandlerKind

/-- Well-formedness of a factory state, true of every state reachable from
`factoryInit`: cached ids are below the counter and pairwise distinct; cached
keys carry a registered kind; cached `batch.pool` keys carry a non-empty
`pool_name` entry. -/
@[reducible]
def FactoryWF (s : FactoryState) : Prop :=
  (∀ e ∈ s.cache, e.2 < s.nextId) ∧
  (s.cache.map Prod.snd).Nodup ∧
  (∀ e ∈ s.cache, e.1.1 ∈ registeredKeys) ∧
  (∀ e ∈ s.cache, e.1.1 = "batch.pool" →
    e.1.2.any (fun p => p.1 == "pool_name" && !(p.2 == "")) = true)

deriving instance DecidableEq for Except

/-! ## Guardrail gate (`DAPEAgent/triage_agent.py`)

`resource_group_guardrail` and `resource_exists_guardrail`.  The verification
sub-routine (`Runner.run` of the guardrail agent followed by
`final_output_as(...)`) is an external collaborator: each embedded guardrail
receives the verdict that sub-routine would produce, and reports as its third
result component the number of times the sub-routine was actually invoked. -/

/-- Pydantic model `ResourceGroupExistsOutput`. -/
structure ResourceGroupExistsOutput where
  resource_group_exists : Bool
  reasoning : String
  resource_group_name : String
deriving DecidableEq

/-- Pydantic model `ResourceExistsOutput`. -/
structure ResourceExistsOutput where
  resource_exists : Bool
  reasoning : String
  resource_name : String
  resource_type : String
deriving DecidableEq

/-- The framework's `GuardrailFunctionOutput`, specialised to an output type. -/
structure GuardrailFunctionOutput (α : Type) where
  output_info : α
  tripwire_triggered : Bool
deriving DecidableEq

/-- Skip phrases of `resource_group_guardrail`. -/
def rg_skip_phrases : List String :=
  ["list all subscriptions", "show subscriptions", "list subscriptions",
   "switch to subscription", "list resource groups", "show resource groups",
   "list all resource groups"]

/-- The same-scope follow-up phrases (shared by both guardrails). -/
def followup_phrases : List String :=
  ["test the connection", "test connection", "list linked services",
   "show linked services", "in the same", "same data factory"]

/-- Resource-group keywords of `resource_group_guardrail`. -/
def rg_keywords : List String := ["resource group", "resource-group", "rg "]

/-- `resource_group_guardrail(ctx, agent, input_data)`: returns the guardrail
output, the (possibly mutated) context, and the number of verification
sub-routine invocations. -/
def resource_group_guardrail (ctx : AzureCtxConfig) (input_data : String)
    (verdict : ResourceGroupExistsOutput) :
    GuardrailFunctionOutput ResourceGroupExistsOutput × AzureCtxConfig × Nat :=
  let input_text := lowerStr input_data
  if anyIn rg_skip_phrases input_text then
    (⟨⟨true, "Query does not require resource group validation", "N/A"⟩, false⟩,
     ctx, 0)
  else if truthyS ctx.resource_group_name && anyIn followup_phrases input_text then
    (⟨⟨true,
       "Using previously validated resource group: " ++
         ctx.resource_group_name.getD "",
       ctx.resource_group_name.getD ""⟩, false⟩,
     ctx, 0)
  else if !(anyIn rg_keywords input_text) then
    (⟨⟨true, "No specific resource group mentioned in query", "N/A"⟩, false⟩,
     ctx, 0)
  else
    let ctx' :=
      if verdict.resource_group_exists then
        ⟨ctx.subscription_id, some verdict.resource_group_name,
         ctx.resource_name, ctx.intent, ctx.auth⟩
      else ctx
    (⟨verdict, !verdict.resource_group_exists⟩, ctx', 1)

/-- Skip phrases of `resource_exists_guardrail`. -/
def resource_skip_phrases : List String :=
  ["list all subscriptions", "show subscriptions", "list subscriptions",
   "switch to subscription", "list resource groups", "show resource groups",
   "list all resource groups", "list all resources", "show all resources"]

/-- Resource-type keywords of `resource_exists_guardrail`. -/
def resource_keywords : List String :=
  ["data factory", "adf", "key vault", "batch account", "linked service",
   "pipeline", "trigger"]

/-- `resource_exists_guardrail(ctx, agent, input_data)`: returns the guardrail
output, the (possibly mutated) context, and the number of verification
sub-routine invocations. -/
def resource_exists_guardrail (ctx : AzureCtxConfig) (input_data : String)
    (verdict : ResourceExistsOutput) :
    GuardrailFunctionOutput ResourceExistsOutput × AzureCtxConfig × Nat :=
  let input_text := lowerStr input_data
  if anyIn resource_skip_phrases input_text then
    (⟨⟨true, "Query does not require specific resource validation", "N/A",
       "N/A"⟩, false⟩,
     ctx, 0)
  else if truthyS ctx.resource_name && anyIn followup_phrases input_text then
    (⟨⟨true,
       "Using previously validated resource: " ++ ctx.resource_name.getD "",
       ctx.resource_name.getD "", "Microsoft.DataFactory/factories"⟩, false⟩,
     ctx, 0)
  else if !(anyIn resource_keywords input_text) then
    (⟨⟨true, "No specific resource mentioned in query", "N/A", "N/A"⟩, false⟩,
     ctx, 0)
  else
    let ctx' :=
      if verdict.resource_exists then
        ⟨ctx.subscription_id, ctx.resource_group_name,
         some verdict.resource_name, ctx.intent, ctx.auth⟩
      else ctx
    (⟨verdict, !verdict.resource_exists⟩, ctx', 1)

/-! ## Tool filters (`allow_tools` in `DAPEAgent/azure/mcp/azure_mcp_agent.py`
and in `DAPEAgent/mcp/azure_mcp_agent.py`) -/

/-- An externally discovered remote tool: a name plus opaque metadata. -/
structure Tool where
  name : String
  description : String
deriving DecidableEq

/-- The framework's `ToolFilterContext` (opaque to the filter). -/
structure ToolFilterContext where
  agent_name : String
deriving DecidableEq

/-- Allow-list of the grouped-family variant
(`DAPEAgent/azure/mcp/azure_mcp_agent.py`). -/
def grouped_tool_list : List String := ["storage", "kusto"]

/-- `allow_tools` from `DAPEAgent/azure/mcp/azure_mcp_agent.py`: exact match
against `grouped_tool_list` or a name containing `-storage-`. -/
def allow_tools (_ctx : ToolFilterContext) (tool : Tool) : Bool :=
  if tool.name ∈ grouped_tool_list || strIn "-storage-" tool.name then true
  else false

/-- Allow-list of the exact-match variant
(`DAPEAgent/mcp/azure_mcp_agent.py`). -/
def mcp_tool_list : List String :=
  ["microsoft_docs_search", "azmcp-azureterraformbestpractices-get",
   "azmcp-bestpractices-get", "azmcp-bicepschema-get",
   "azmcp-cosmos-account-list", "azmcp-cosmos-database-container-item-query",
   "azmcp-cosmos-database-container-list", "azmcp-cosmos-database-list",
   "azmcp-foundry-models-deploy", "azmcp-foundry-models-deployments-list",
   "azmcp-foundry-models-list", "azmcp-group-list", "azmcp-kusto-cluster-get",
   "azmcp-kusto-cluster-list", "azmcp-kusto-database-list", "azmcp-kusto-query",
   "azmcp-kusto-sample", "azmcp-kusto-table-list", "azmcp-kusto-table-schema",
   "azmcp-monitor-healthmodels-entity-gethealth",
   "azmcp-monitor-metrics-definitions", "azmcp-monitor-metrics-query",
   "azmcp-monitor-resource-log-query", "azmcp-monitor-table-list",
   "azmcp-monitor-table-type-list", "azmcp-monitor-workspace-list",
   "azmcp-monitor-workspace-log-query", "azmcp-role-assignment-list",
   "azmcp-subscription-list"]

/-- `allow_tools` from `DAPEAgent/mcp/azure_mcp_agent.py`: exact match against
`mcp_tool_list`. -/
def allow_tools_mcp (_ctx : ToolFilterContext) (tool : Tool) : Bool :=
  if tool.name ∈ mcp_tool_list then true else false

/-! ## Concrete data used by witnesses and counterexamples -/

/-- A concrete `set_azure_context` call sequence: an empty-string id write,
then real values, then late duplicates. -/
def c2DemoCalls : List CtxArgs :=
  [⟨some "", some "rg1", none, none⟩, ⟨some "abc", none, some "", some "do"⟩,
   ⟨some "zzz", some "rg2", some "res", none⟩]

/-- A verification verdict reporting a missing resource group. -/
def c5DemoVerdict : ResourceGroupExistsOutput := ⟨false, "rg missing", "marketing-rg"⟩

/-- Scenario-2 context: group known, resource name still unset. -/
def c7Ctx : AzureCtxConfig := ⟨none, some "SQL-RG", none, none, false⟩

/-- Scenario-2 context with the resource name also populated. -/
def c7CtxWithResource : AzureCtxConfig := ⟨none, some "SQL-RG", some "adf-prod", none, false⟩

/-- The scenario-2 request text. -/
def c7Input : String := "test the connection for linked service X in the same data factory"

/-- A positive resource-group verdict for scenario 2. -/
def c7RgVerdict : ResourceGroupExistsOutput := ⟨true, "ok", "SQL-RG"⟩

/-- A positive resource verdict for scenario 2. -/
def c7ResVerdict : ResourceExistsOutput :=
  ⟨true, "ok", "adf-x", "Microsoft.DataFactory/factories"⟩

/-- A keyvault context. -/
def c1CtxA : AzureCtx := ⟨some "s", none, some "g", some "v", none⟩

/-- `c1CtxA` with its resource name changed. -/
def c1CtxB : AzureCtx := ⟨some "s", none, some "g", some "v2", none⟩

/-- Factory state after serving `c1CtxA` from the empty cache. -/
def c1S1 : FactoryState :=
  ⟨[(("keyvault", [("resource_group_name", "g"), ("resource_name", "v"),
      ("subscription_id", "s")]), 0)], 1⟩

/-- Factory state after additionally serving `c1CtxB`. -/
def c1S3 : FactoryState :=
  ⟨[(("keyvault", [("resource_group_name", "g"), ("resource_name", "v2"),
      ("subscription_id", "s")]), 1),
    (("keyvault", [("resource_group_name", "g"), ("resource_name", "v"),
      ("subscription_id", "s")]), 0)], 2⟩

/-- A keyvault context without a batch pool name. -/
def c6CtxNoPool : AzureCtx := ⟨some "s", none, some "g", some "kv", none⟩

/-- The same keyvault context with a (keyvault-irrelevant) pool name added. -/
def c6CtxPool : AzureCtx := ⟨some "s", none, some "g", some "kv", some "p"⟩

/-- Factory state after serving `c6CtxNoPool` from the empty cache. -/
def c6S1 : FactoryState :=
  ⟨[(("keyvault", [("resource_group_name", "g"), ("resource_name", "kv"),
      ("subscription_id", "s")]), 0)], 1⟩

/-- Factory state after additionally serving `c6CtxPool`. -/
def c6S2 : FactoryState :=
  ⟨[(("keyvault", [("pool_name", "p"), ("resource_group_name", "g"),
      ("resource_name", "kv"), ("subscription_id", "s")]), 1),
    (("keyvault", [("resource_group_name", "g"), ("resource_name", "kv"),
      ("subscription_id", "s")]), 0)], 2⟩
/-! ## Context store lemmas -/

theorem ctxFieldStep_fst (label : String) (cur arg : Option String) :
    (ctxFieldStep label cur arg).1 = setField cur arg := by
  unfold ctxFieldStep setField
  by_cases h : truthyS cur
  · simp [h]
  · cases arg <;> simp [h]

theorem setField_none (cur : Option String) : setField cur none = cur := by
  unfold setField
  by_cases h : truthyS cur <;> simp [h]

theorem setField_truthy {cur : Option String} (h : truthyS cur = true)
    (arg : Option String) : setField cur arg = cur := by
  simp [setField, h]

theorem setField_absent {cur : Option String} (h : truthyS cur = false)
    (v : String) : setField cur (some v) = some v := by
  simp [setField, h]

theorem applyCall_subscription_id (c : AzureCtxConfig) (a : CtxArgs) :
    (applyCall c a).subscription_id = setField c.subscription_id a.subscription_id := by
  simp [applyCall, set_azure_context, ctxFieldStep_fst]

theorem applyCall_resource_group_name (c : AzureCtxConfig) (a : CtxArgs) :
    (applyCall c a).resource_group_name = setField c.resource_group_name a.resource_group_name := by
  simp [applyCall, set_azure_context, ctxFieldStep_fst]

theorem applyCall_resource_name (c : AzureCtxConfig) (a : CtxArgs) :
    (applyCall c a).resource_name = setField c.resource_name a.resource_name := by
  simp [applyCall, set_azure_context, ctxFieldStep_fst]

theorem applyCall_intent (c : AzureCtxConfig) (a : CtxArgs) :
    (applyCall c a).intent = setField c.intent a.intent := by
  simp [applyCall, set_azure_context, ctxFieldStep_fst]

theorem foldl_setField_truthy {cur : Option String} (h : truthyS cur = true) :
    ∀ l : List (Option String), l.foldl setField cur = cur := by
  intro l
  induction l with
  | nil => rfl
  | cons a t ih => rw [List.foldl_cons, setField_truthy h, ih]

theorem foldl_setField_first :
    ∀ (l : List (Option String)) (cur : Option String) (v : String),
      truthyS cur = false → firstNonEmptyArg l = some v →
      l.foldl setField cur = some v := by
  intro l
  induction l with
  | nil => intro cur v _ h; simp [firstNonEmptyArg] at h
  | cons a t ih =>
      intro cur v hcur h
      cases a with
      | none =>
          rw [List.foldl_cons, setField_none]
          exact ih cur v hcur h
      | some s =>
          by_cases hs : s = ""
          · subst hs
            rw [List.foldl_cons, setField_absent hcur]
            simp [firstNonEmptyArg] at h
            exact ih (some "") v (by simp [truthyS]) h
          · have hv : s = v := by
              simp [firstNonEmptyArg, hs] at h
              exact h
            subst hv
            rw [List.foldl_cons, setField_absent hcur]
            exact foldl_setField_truthy (by simp [truthyS, hs]) t

theorem applyCalls_foldl_field (f : AzureCtxConfig → Option String)
    (g : CtxArgs → Option String)
    (hfg : ∀ c a, f (applyCall c a) = setField (f c) (g a)) :
    ∀ (calls : List CtxArgs) (c : AzureCtxConfig),
      f (calls.foldl applyCall c) = (calls.map g).foldl setField (f c) := by
  intro calls
  induction calls with
  | nil => intro c; rfl
  | cons a t ih =>
      intro c
      rw [List.map_cons, List.foldl_cons, List.foldl_cons, ← hfg]
      exact ih (applyCall c a)

theorem applyCalls_first_write (f : AzureCtxConfig → Option String)
    (g : CtxArgs → Option String)
    (hfg : ∀ c a, f (applyCall c a) = setField (f c) (g a))
    (hinit : f azureCtxConfigInit = none)
    (calls : List CtxArgs) (v : String)
    (h : firstNonEmptyArg (calls.map g) = some v) :
    f (applyCalls calls) = some v := by
  unfold applyCalls
  rw [applyCalls_foldl_field f g hfg, hinit]
  exact foldl_setField_first _ _ _ rfl h

/-- C2: over any sequence of `set_azure_context` calls on one fresh context
store, each of the four fields ends at the value of the first non-empty
argument supplied for it; a call never changes a field that is already
non-empty, and a `None` argument never clears or overwrites a field. -/
theorem C2_first_nonempty_write_wins (calls : List CtxArgs) :
    ((∀ v : String, firstNonEmptyArg (calls.map CtxArgs.subscription_id) = some v →
        (applyCalls calls).subscription_id = some v) ∧
     (∀ v : String, firstNonEmptyArg (calls.map CtxArgs.resource_group_name) = some v →
        (applyCalls calls).resource_group_name = some v) ∧
     (∀ v : String, firstNonEmptyArg (calls.map CtxArgs.resource_name) = some v →
        (applyCalls calls).resource_name = some v) ∧
     (∀ v : String, firstNonEmptyArg (calls.map CtxArgs.intent) = some v →
        (applyCalls calls).intent = some v)) ∧
    (∀ (c : AzureCtxConfig) (a : CtxArgs),
      (truthyS c.subscription_id = true →
        (applyCall c a).subscription_id = c.subscription_id) ∧
      (truthyS c.resource_group_name = true →
        (applyCall c a).resource_group_name = c.resource_group_name) ∧
      (truthyS c.resource_name = true →
        (applyCall c a).resource_name = c.resource_name) ∧
      (truthyS c.intent = true → (applyCall c a).intent = c.intent)) ∧
    (∀ (c : AzureCtxConfig) (a : CtxArgs),
      (a.subscription_id = none →
        (applyCall c a).subscription_id = c.subscription_id) ∧
      (a.resource_group_name = none →
        (applyCall c a).resource_group_name = c.resource_group_name) ∧
      (a.resource_name = none → (applyCall c a).resource_name = c.resource_name) ∧
      (a.intent = none → (applyCall c a).intent = c.intent)) := by
  refine ⟨⟨?_, ?_, ?_, ?_⟩, ?_, ?_⟩
  · exact applyCalls_first_write _ CtxArgs.subscription_id
      applyCall_subscription_id rfl calls
  · exact applyCalls_first_write _ CtxArgs.resource_group_name
      applyCall_resource_group_name rfl calls
  · exact applyCalls_first_write _ CtxArgs.resource_name
      applyCall_resource_name rfl calls
  · exact applyCalls_first_write _ CtxArgs.intent applyCall_intent rfl calls
  · intro c a
    exact ⟨fun h => by rw [applyCall_subscription_id, setField_truthy h],
           fun h => by rw [applyCall_resource_group_name, setField_truthy h],
           fun h => by rw [applyCall_resource_name, setField_truthy h],
           fun h => by rw [applyCall_intent, setField_truthy h]⟩
  · intro c a
    refine ⟨fun h => ?_, fun h => ?_, fun h => ?_, fun h => ?_⟩
    · rw [applyCall_subscription_id, h, setField_none]
    · rw [applyCall_resource_group_name, h, setField_none]
    · rw [applyCall_resource_name, h, setField_none]
    · rw [applyCall_intent, h, setField_none]

/-- Witness for C2 at the concrete call sequence `c2DemoCalls`. -/
theorem C2_first_nonempty_write_wins_witness :
    firstNonEmptyArg (c2DemoCalls.map CtxArgs.subscription_id) = some "abc" ∧
    (applyCalls c2DemoCalls).subscription_id = some "abc" ∧
    (applyCalls c2DemoCalls).resource_name = some "res" :=
  ⟨by decide,
   (C2_first_nonempty_write_wins c2DemoCalls).1.1 "abc" (by decide),
   (C2_first_nonempty_write_wins c2DemoCalls).1.2.2.1 "res" (by decide)⟩

/-- C10: occupancy is decided by truthiness, not `None`-ness: a call writes
the empty string into an unset field (and reports it under `newly_set`), yet
a field holding the empty string is treated as unset, so any later non-empty
value overwrites it. -/
theorem C10_empty_string_occupancy :
    ((set_azure_context azureCtxConfigInit (some "") none none none).1.subscription_id
        = some "" ∧
     (set_azure_context azureCtxConfigInit (some "") none none none).2.2
        = ["Subscription ID: "]) ∧
    (∀ (rg rn it : Option String) (au : Bool) (v : String),
      (applyCall ⟨some "", rg, rn, it, au⟩ ⟨some v, none, none, none⟩).subscription_id
        = some v) := by
  refine ⟨⟨rfl, rfl⟩, ?_⟩
  intro rg rn it au v
  rw [applyCall_subscription_id]
  exact setField_absent (by simp [truthyS]) v

/-- C3 counterexample: the claim "a token is never returned when
`now >= expiry - 5 minutes`" fails for a freshly acquired token: at
`now = 1000` with a provider response expiring at `expires_on = 1000`,
`get_token` still returns that token although `now >= expires_on - 300`. -/
theorem C3_counterexample :
    (get_token authInit 1000 ⟨"tok", 1000⟩).1 = "tok" ∧
    (1000 : Int) ≥ 1000 - 300 ∧
    (get_token authInit 1000 ⟨"tok", 1000⟩).2.1.token_expiry = some (1000 - 300) := by
  decide

/-- C3 amended: a first `get_token` call acquires; a second call before the
first token's reported expiry minus the 5-minute skew performs no second
acquisition and returns the same value; a second call at or after that
instant acquires again; and a CACHED token is never served once
`now >= stored expiry` (the reported expiry minus the skew) — but a freshly
acquired token is returned without any expiry check. -/
theorem C3_token_cache (t1 t2 : Int) (r1 r2 : TokenResponse) :
    ((get_token authInit t1 r1).2.2 = true ∧ (get_token authInit t1 r1).1 = r1.token) ∧
    (t2 < r1.expires_on - 300 →
      (get_token (get_token authInit t1 r1).2.1 t2 r2).2.2 = false ∧
      (get_token (get_token authInit t1 r1).2.1 t2 r2).1 = r1.token) ∧
    (t2 ≥ r1.expires_on - 300 →
      (get_token (get_token authInit t1 r1).2.1 t2 r2).2.2 = true) ∧
    (∀ (s : AuthState) (now : Int) (r : TokenResponse),
      (get_token s now r).2.2 = false →
      ∃ t e, s.token = some t ∧ s.token_expiry = some e ∧ now < e ∧
        (get_token s now r).1 = t) := by
  have h1 : get_token authInit t1 r1 =
      (r1.token, ⟨some r1.token, some (r1.expires_on - 300)⟩, true) := rfl
  refine ⟨⟨by rw [h1], by rw [h1]⟩, ?_, ?_, ?_⟩
  · intro hlt
    rw [h1]
    simp only [get_token]
    rw [if_neg (by omega)]
    exact ⟨rfl, rfl⟩
  · intro hge
    rw [h1]
    simp only [get_token]
    rw [if_pos (by omega)]
  · intro s now r h
    cases hs : s.token with
    | none =>
        exfalso
        unfold get_token at h
        rw [hs] at h
        cases s.token_expiry <;> simp at h
    | some t =>
        cases he : s.token_expiry with
        | none =>
            exfalso
            unfold get_token at h
            rw [hs, he] at h
            simp at h
        | some e =>
            refine ⟨t, e, rfl, rfl, ?_, ?_⟩
            · by_contra hc
              have hge : now ≥ e := by omega
              unfold get_token at h
              rw [hs, he] at h
              simp [hge] at h
            · unfold get_token at h ⊢
              rw [hs, he] at h ⊢
              by_cases hge : now ≥ e
              · simp [hge] at h
              · simp [hge]

/-- C9: both `allow_tools` variants are pure predicates of the tool name
alone: the grouped-family variant accepts exactly the fixed names plus any
name containing the `-storage-` infix, the exact variant accepts exactly the
members of its fixed allow-list, and equal names give equal answers
regardless of the filter context or other tool metadata. -/
theorem C9_tool_filter (c c' : ToolFilterContext) (t t' : Tool) :
    (t.name = t'.name →
      allow_tools c t = allow_tools c' t' ∧
      allow_tools_mcp c t = allow_tools_mcp c' t') ∧
    (allow_tools c t = true ↔
      (t.name ∈ grouped_tool_list ∨ strIn "-storage-" t.name = true)) ∧
    (allow_tools_mcp c t = true ↔ t.name ∈ mcp_tool_list) := by
  refine ⟨fun h => ?_, ?_, ?_⟩
  · unfold allow_tools allow_tools_mcp
    rw [h]
    exact ⟨rfl, rfl⟩
  · unfold allow_tools
    by_cases h1 : t.name ∈ grouped_tool_list <;> by_cases h2 : strIn "-storage-" t.name = true <;>
      simp [h1, h2]
  · unfold allow_tools_mcp
    by_cases h1 : t.name ∈ mcp_tool_list <;> simp [h1]

/-- C4: the resource-group guardrail invokes its verification sub-routine
exactly once if and only if no generic skip phrase matches, the
context/follow-up skip does not apply, and the text contains a
resource-group keyword; the count is never above one; and on a skip (count
zero) it returns a verdict with `exists = true` and no tripwire. -/
theorem C4_guardrail_gate (ctx : AzureCtxConfig) (input : String)
    (verdict : ResourceGroupExistsOutput) :
    ((resource_group_guardrail ctx input verdict).2.2 = 1 ↔
      (anyIn rg_skip_phrases (lowerStr input) = false ∧
       (truthyS ctx.resource_group_name && anyIn followup_phrases (lowerStr input)) = false ∧
       anyIn rg_keywords (lowerStr input) = true)) ∧
    ((resource_group_guardrail ctx input verdict).2.2 = 0 ∨
     (resource_group_guardrail ctx input verdict).2.2 = 1) ∧
    ((resource_group_guardrail ctx input verdict).2.2 = 0 →
      (resource_group_guardrail ctx input verdict).1.output_info.resource_group_exists = true ∧
      (resource_group_guardrail ctx input verdict).1.tripwire_triggered = false) := by
  unfold resource_group_guardrail
  by_cases h1 : anyIn rg_skip_phrases (lowerStr input) = true
  · simp [h1]
  · rw [Bool.not_eq_true] at h1
    by_cases h2 : (truthyS ctx.resource_group_name && anyIn followup_phrases (lowerStr input)) = true
    · simp [h1, h2]
    · rw [Bool.not_eq_true] at h2
      by_cases h3 : anyIn rg_keywords (lowerStr input) = true
      · simp [h1, h2, h3]
      · rw [Bool.not_eq_true] at h3
        simp [h1, h2, h3]

/-- C5: when the verification sub-routine runs, an `exists = true` verdict
writes the confirmed name into the context's resource-group field without a
tripwire, and an `exists = false` verdict trips the tripwire and leaves the
whole context (in particular the resource-group field) unchanged. -/
theorem C5_verdict_persistence (ctx : AzureCtxConfig) (input : String)
    (verdict : ResourceGroupExistsOutput)
    (hrun : (resource_group_guardrail ctx input verdict).2.2 = 1) :
    (verdict.resource_group_exists = true →
      (resource_group_guardrail ctx input verdict).2.1.resource_group_name =
        some verdict.resource_group_name ∧
      (resource_group_guardrail ctx input verdict).1.tripwire_triggered = false) ∧
    (verdict.resource_group_exists = false →
      (resource_group_guardrail ctx input verdict).1.tripwire_triggered = true ∧
      (resource_group_guardrail ctx input verdict).2.1 = ctx) := by
  unfold resource_group_guardrail at hrun ⊢
  by_cases h1 : anyIn rg_skip_phrases (lowerStr input) = true
  · simp [h1] at hrun
  · rw [Bool.not_eq_true] at h1
    by_cases h2 : (truthyS ctx.resource_group_name && anyIn followup_phrases (lowerStr input)) = true
    · simp [h1, h2] at hrun
    · rw [Bool.not_eq_true] at h2
      by_cases h3 : anyIn rg_keywords (lowerStr input) = true
      · cases hv : verdict.resource_group_exists <;> simp [h1, h2, h3, hv]
      · rw [Bool.not_eq_true] at h3
        simp [h1, h2, h3] at hrun

/-- Witness for C5 at a concrete failing verification. -/
theorem C5_verdict_persistence_witness :
    (resource_group_guardrail azureCtxConfigInit
        "delete resource group marketing-rg" c5DemoVerdict).2.2 = 1 ∧
    ((resource_group_guardrail azureCtxConfigInit
        "delete resource group marketing-rg" c5DemoVerdict).1.tripwire_triggered = true ∧
     (resource_group_guardrail azureCtxConfigInit
        "delete resource group marketing-rg" c5DemoVerdict).2.1 = azureCtxConfigInit) :=
  ⟨by decide, (C5_verdict_persistence azureCtxConfigInit "delete resource group marketing-rg"
      c5DemoVerdict (by decide)).2 rfl⟩

/-- C7 counterexample: with `group_name = "SQL-RG"` and `resource_name`
unset, the scenario-2 request passes the resource-group check without
verification, but the resource-existence check DOES invoke its verification
sub-routine (count 1, not the claimed zero), because its follow-up skip
requires a truthy `resource_name` in context. -/
theorem C7_counterexample :
    (resource_group_guardrail c7Ctx c7Input c7RgVerdict).2.2 = 0 ∧
    (resource_exists_guardrail c7Ctx c7Input c7ResVerdict).2.2 = 1 := by decide

/-- C7 amended: with `group_name = "SQL-RG"` the resource-group check
passes via the same-scope follow-up phrase using the context value, with
zero verification calls; the resource-existence check only does so when
`resource_name` is also set (e.g. `adf-prod`) — with `resource_name` unset
it invokes its verification sub-routine once. -/
theorem C7_followup_scope :
    ((resource_group_guardrail c7Ctx c7Input c7RgVerdict).1.output_info =
        ⟨true, "Using previously validated resource group: SQL-RG", "SQL-RG"⟩ ∧
     (resource_group_guardrail c7Ctx c7Input c7RgVerdict).1.tripwire_triggered = false ∧
     (resource_group_guardrail c7Ctx c7Input c7RgVerdict).2.1 = c7Ctx ∧
     (resource_group_guardrail c7Ctx c7Input c7RgVerdict).2.2 = 0) ∧
    (resource_exists_guardrail c7Ctx c7Input c7ResVerdict).2.2 = 1 ∧
    ((resource_exists_guardrail c7CtxWithResource c7Input c7ResVerdict).1.output_info =
        ⟨true, "Using previously validated resource: adf-prod", "adf-prod",
         "Microsoft.DataFactory/factories"⟩ ∧
     (resource_exists_guardrail c7CtxWithResource c7Input c7ResVerdict).1.tripwire_triggered = false ∧
     (resource_exists_guardrail c7CtxWithResource c7Input c7ResVerdict).2.1 = c7CtxWithResource ∧
     (resource_exists_guardrail c7CtxWithResource c7Input c7ResVerdict).2.2 = 0) := by decide

/-! ## Factory lemmas -/

theorem insertPair_perm (p : String × String) (l : List (String × String)) :
    (insertPair p l).Perm (p :: l) := by
  induction l with
  | nil => exact List.Perm.refl _
  | cons q t ih =>
      unfold insertPair
      by_cases h : pairLe p q = true
      · simp [h]
      · rw [Bool.not_eq_true] at h
        simp only [h, Bool.false_eq_true, if_false]
        exact (ih.cons q).trans (List.Perm.swap p q t)

theorem sortPairs_perm (l : List (String × String)) : (sortPairs l).Perm l := by
  induction l with
  | nil => exact List.Perm.refl _
  | cons p t ih => exact (insertPair_perm p (sortPairs t)).trans (ih.cons p)

theorem mem_optEntry {p : String × String} {n : String} {o : Option String} :
    p ∈ optEntry n o ↔ (p.1 = n ∧ o = some p.2) := by
  obtain ⟨p1, p2⟩ := p
  cases o <;> simp [optEntry, and_comm, eq_comm]

theorem mem_extract {p : String × String} {c : AzureCtx} :
    p ∈ _extract_context_values c ↔
      ((p.1 = "subscription_id" ∧ c.subscription_id = some p.2) ∨
       (p.1 = "subscription_name" ∧ c.subscription_name = some p.2) ∨
       (p.1 = "resource_group_name" ∧ c.resource_group_name = some p.2) ∨
       (p.1 = "resource_name" ∧ c.resource_name = some p.2) ∨
       (p.1 = "pool_name" ∧ c.pool_name = some p.2)) := by
  simp [_extract_context_values, mem_optEntry]

theorem extract_field_subscription_id {c : AzureCtx} (v : String) :
    ("subscription_id", v) ∈ _extract_context_values c ↔ c.subscription_id = some v := by
  rw [mem_extract]; simp

theorem extract_field_subscription_name {c : AzureCtx} (v : String) :
    ("subscription_name", v) ∈ _extract_context_values c ↔ c.subscription_name = some v := by
  rw [mem_extract]; simp

theorem extract_field_resource_group_name {c : AzureCtx} (v : String) :
    ("resource_group_name", v) ∈ _extract_context_values c ↔
      c.resource_group_name = some v := by
  rw [mem_extract]; simp

theorem extract_field_resource_name {c : AzureCtx} (v : String) :
    ("resource_name", v) ∈ _extract_context_values c ↔ c.resource_name = some v := by
  rw [mem_extract]; simp

theorem extract_field_pool_name {c : AzureCtx} (v : String) :
    ("pool_name", v) ∈ _extract_context_values c ↔ c.pool_name = some v := by
  rw [mem_extract]; simp

theorem extract_inj {c c' : AzureCtx}
    (h : ∀ p : String × String,
      p ∈ _extract_context_values c ↔ p ∈ _extract_context_values c') :
    c = c' := by
  obtain ⟨f1, f2, f3, f4, f5⟩ := c
  obtain ⟨g1, g2, g3, g4, g5⟩ := c'
  have h1 : f1 = g1 := Option.ext fun v =>
    (extract_field_subscription_id v).symm.trans
      ((h _).trans (extract_field_subscription_id v))
  have h2 : f2 = g2 := Option.ext fun v =>
    (extract_field_subscription_name v).symm.trans
      ((h _).trans (extract_field_subscription_name v))
  have h3 : f3 = g3 := Option.ext fun v =>
    (extract_field_resource_group_name v).symm.trans
      ((h _).trans (extract_field_resource_group_name v))
  have h4 : f4 = g4 := Option.ext fun v =>
    (extract_field_resource_name v).symm.trans
      ((h _).trans (extract_field_resource_name v))
  have h5 : f5 = g5 := Option.ext fun v =>
    (extract_field_pool_name v).symm.trans
      ((h _).trans (extract_field_pool_name v))
  rw [h1, h2, h3, h4, h5]

theorem cache_key_inj {k k' : String} {c c' : AzureCtx}
    (h : _make_cache_key k (_extract_context_values c) =
         _make_cache_key k' (_extract_context_values c')) :
    k = k' ∧ c = c' := by
  unfold _make_cache_key at h
  have hk : k = k' := congrArg Prod.fst h
  have hs : sortPairs (_extract_context_values c) =
      sortPairs (_extract_context_values c') := congrArg Prod.snd h
  refine ⟨hk, extract_inj fun p => ?_⟩
  rw [← (sortPairs_perm (_extract_context_values c)).mem_iff (a := p),
      ← (sortPairs_perm (_extract_context_values c')).mem_iff (a := p), hs]

theorem findCache_entry {k : HandlerCacheKey} {l : List (HandlerCacheKey × Nat)}
    {v : Nat} (h : findCache k l = some v) : (k, v) ∈ l := by
  induction l with
  | nil => cases h
  | cons e t ih =>
      obtain ⟨e1, e2⟩ := e
      unfold findCache at h
      by_cases he : e1 = k
      · simp only [he, if_pos rfl] at h
        have hv : e2 = v := Option.some.inj h
        rw [he, hv]
        exact List.mem_cons_self _ _
      · rw [if_neg (by simpa using he)] at h
        exact List.mem_cons_of_mem _ (ih h)

theorem findCache_mem_values {k : HandlerCacheKey} {l : List (HandlerCacheKey × Nat)}
    {v : Nat} (h : findCache k l = some v) : v ∈ l.map Prod.snd :=
  List.mem_map.2 ⟨(k, v), findCache_entry h, rfl⟩

theorem findCache_inj_values {l : List (HandlerCacheKey × Nat)}
    (nd : (l.map Prod.snd).Nodup) {k1 k2 : HandlerCacheKey} {v1 v2 : Nat}
    (h1 : findCache k1 l = some v1) (h2 : findCache k2 l = some v2)
    (hk : k1 ≠ k2) : v1 ≠ v2 := by
  induction l with
  | nil => cases h1
  | cons e t ih =>
      obtain ⟨e1, e2⟩ := e
      rw [List.map_cons, List.nodup_cons] at nd
      unfold findCache at h1 h2
      by_cases he1 : e1 = k1 <;> by_cases he2 : e1 = k2
      · exact absurd (he1 ▸ he2) hk
      · simp only [he1, if_pos rfl] at h1
        rw [if_neg (by simpa using he2)] at h2
        have hv1 : e2 = v1 := Option.some.inj h1
        intro hc
        exact nd.1 (hv1 ▸ hc ▸ findCache_mem_values h2)
      · simp only [he2, if_pos rfl] at h2
        rw [if_neg (by simpa using he1)] at h1
        have hv2 : e2 = v2 := Option.some.inj h2
        intro hc
        exact nd.1 (hv2 ▸ hc ▸ findCache_mem_values h1)
      · rw [if_neg (by simpa using he1)] at h1
        rw [if_neg (by simpa using he2)] at h2
        exact ih nd.2 h1 h2

theorem grh_hit {k : String} {ctx : AzureCtx} {s : FactoryState} {h : Nat}
    (hf : findCache (_make_cache_key k (_extract_context_values ctx)) s.cache = some h) :
    get_resource_handler k ctx s = .ok (h, s) := by
  simp only [get_resource_handler]
  rw [hf]

theorem grh_ok_cases {k : String} {ctx : AzureCtx} {s : FactoryState} {h : Nat}
    {s' : FactoryState} (e : get_resource_handler k ctx s = .ok (h, s')) :
    (findCache (_make_cache_key k (_extract_context_values ctx)) s.cache = some h ∧
      s' = s) ∨
    (findCache (_make_cache_key k (_extract_context_values ctx)) s.cache = none ∧
      h = s.nextId ∧
      s' = ⟨(_make_cache_key k (_extract_context_values ctx), s.nextId) :: s.cache,
            s.nextId + 1⟩ ∧
      k ∈ registeredKeys ∧
      (k = "batch.pool" →
        truthyS (dictGet "pool_name" (_extract_context_values ctx)) = true)) := by
  simp only [get_resource_handler] at e
  split at e
  next v hf =>
    have hv := Except.ok.inj e
    have h1 : v = h := congrArg Prod.fst hv
    have h2 : s = s' := congrArg Prod.snd hv
    exact Or.inl ⟨h1 ▸ hf, h2.symm⟩
  next hf =>
    split_ifs at e with hk hp
    refine Or.inr ⟨hf, ?_, ?_, hk, fun hb => ?_⟩
    · exact (congrArg Prod.fst (Except.ok.inj e)).symm
    · exact (congrArg Prod.snd (Except.ok.inj e)).symm
    · by_contra ht
      exact hp ⟨hb, ht⟩

theorem dictGet_mem {n : String} {l : List (String × String)} {v : String}
    (h : dictGet n l = some v) : (n, v) ∈ l := by
  induction l with
  | nil => cases h
  | cons e t ih =>
      obtain ⟨e1, e2⟩ := e
      unfold dictGet at h
      by_cases he : e1 = n
      · simp only [he, if_pos rfl] at h
        have hv : e2 = v := Option.some.inj h
        rw [he, hv]
        exact List.mem_cons_self _ _
      · rw [if_neg (by simpa using he)] at h
        exact List.mem_cons_of_mem _ (ih h)

theorem dictGet_pool_extract (c : AzureCtx) :
    dictGet "pool_name" (_extract_context_values c) = c.pool_name := by
  obtain ⟨f1, f2, f3, f4, f5⟩ := c
  cases f1 <;> cases f2 <;> cases f3 <;> cases f4 <;> cases f5 <;>
    simp [_extract_context_values, optEntry, dictGet]

theorem truthyS_eq_true {o : Option String} :
    truthyS o = true ↔ ∃ v, o = some v ∧ v ≠ "" := by
  cases o <;> simp [truthyS]

theorem grh_ok_find {k : String} {ctx : AzureCtx} {s : FactoryState} {h : Nat}
    {s' : FactoryState} (e : get_resource_handler k ctx s = .ok (h, s')) :
    findCache (_make_cache_key k (_extract_context_values ctx)) s'.cache = some h := by
  rcases grh_ok_cases e with ⟨hf, rfl⟩ | ⟨hf, hh, rfl, _, _⟩
  · exact hf
  · simp [findCache, hh]

theorem WF_preserve {k : String} {ctx : AzureCtx} {s : FactoryState} {h : Nat}
    {s' : FactoryState} (wf : FactoryWF s)
    (e : get_resource_handler k ctx s = .ok (h, s')) : FactoryWF s' := by
  rcases grh_ok_cases e with ⟨_, rfl⟩ | ⟨hf, hh, rfl, hk, hb⟩
  · exact wf
  · obtain ⟨wf1, wf2, wf3, wf4⟩ := wf
    refine ⟨?_, ?_, ?_, ?_⟩
    · intro e he
      rcases List.mem_cons.1 he with rfl | he'
      · exact Nat.lt_succ_self _
      · exact Nat.lt_succ_of_lt (wf1 e he')
    · rw [List.map_cons, List.nodup_cons]
      refine ⟨fun hc => ?_, wf2⟩
      rcases List.mem_map.1 hc with ⟨e, he, hv⟩
      exact absurd (hv ▸ wf1 e he) (Nat.lt_irrefl _)
    · intro e he
      rcases List.mem_cons.1 he with rfl | he'
      · exact hk
      · exact wf3 e he'
    · intro e he
      rcases List.mem_cons.1 he with rfl | he'
      · intro hbp
        rcases truthyS_eq_true.1 (hb hbp) with ⟨v, hv, hvne⟩
        refine List.any_eq_true.2 ⟨("pool_name", v), ?_, by simp [hvne]⟩
        exact (sortPairs_perm _).mem_iff.2 (dictGet_mem hv)
      · exact wf4 e he'

theorem grh_error_unknown {k : String} {ctx : AzureCtx} {s : FactoryState}
    (wf : FactoryWF s) :
    get_resource_handler k ctx s = .error .unknownHandlerKind ↔
      k ∉ registeredKeys := by
  constructor
  · intro e
    simp only [get_resource_handler] at e
    split at e
    · cases e
    · split_ifs at e with hk hp
      · exact absurd (Except.error.inj e) (by decide)
      · exact hk
  · intro hk
    have hf : findCache (_make_cache_key k (_extract_context_values ctx)) s.cache = none := by
      cases hfc : findCache (_make_cache_key k (_extract_context_values ctx)) s.cache with
      | none => rfl
      | some v => exact absurd (wf.2.2.1 _ (findCache_entry hfc)) hk
    simp only [get_resource_handler]
    rw [hf, if_neg hk]

theorem grh_error_missing {k : String} {ctx : AzureCtx} {s : FactoryState}
    (wf : FactoryWF s) :
    get_resource_handler k ctx s = .error .missingParameter ↔
      (k = "batch.pool" ∧ truthyS ctx.pool_name = false) := by
  constructor
  · intro e
    simp only [get_resource_handler] at e
    split at e
    · cases e
    · split_ifs at e with hk hp
      · refine ⟨hp.1, ?_⟩
        have h2 := hp.2
        rw [dictGet_pool_extract, Bool.not_eq_true] at h2
        exact h2
      · exact absurd (Except.error.inj e).symm (by decide)
  · rintro ⟨hb, hfalse⟩
    have hf : findCache (_make_cache_key k (_extract_context_values ctx)) s.cache = none := by
      cases hfc : findCache (_make_cache_key k (_extract_context_values ctx)) s.cache with
      | none => rfl
      | some v =>
          exfalso
          have hmem := findCache_entry hfc
          have hany := wf.2.2.2 _ hmem hb
          rcases List.any_eq_true.1 hany with ⟨p, hp, hcond⟩
          obtain ⟨p1, p2⟩ := p
          have hcond' : (p1 == "pool_name") = true ∧ (!(p2 == "")) = true := by
            simpa using hcond
          have hp1 : p1 = "pool_name" := by simpa using hcond'.1
          have hp2 : p2 ≠ "" := by simpa using hcond'.2
          have hpc : ("pool_name", p2) ∈ _extract_context_values ctx :=
            (sortPairs_perm _).mem_iff.1 (hp1 ▸ hp)
          have hpn : ctx.pool_name = some p2 := by
            rcases mem_extract.1 hpc with h | h | h | h | h
            · simp at h
            · simp at h
            · simp at h
            · simp at h
            · exact h.2
          rw [hpn] at hfalse
          simp [truthyS, hp2] at hfalse
    simp only [get_resource_handler]
    rw [hf, if_pos (show k ∈ registeredKeys by rw [hb]; decide),
        if_pos ⟨hb, by rw [dictGet_pool_extract, hfalse]; simp⟩]

theorem grh_ok_total {k : String} {ctx : AzureCtx} (s : FactoryState)
    (hk : k ∈ registeredKeys)
    (hb : k = "batch.pool" → truthyS ctx.pool_name = true) :
    ∃ h s', get_resource_handler k ctx s = .ok (h, s') := by
  cases hfc : findCache (_make_cache_key k (_extract_context_values ctx)) s.cache with
  | some v => exact ⟨v, s, grh_hit hfc⟩
  | none =>
      refine ⟨s.nextId,
        ⟨(_make_cache_key k (_extract_context_values ctx), s.nextId) :: s.cache,
         s.nextId + 1⟩, ?_⟩
      simp only [get_resource_handler]
      rw [hfc, if_pos hk, if_neg ?_]
      rintro ⟨hbp, ht⟩
      rw [dictGet_pool_extract] at ht
      exact ht (hb hbp)

/-- C1: two consecutive `get_resource_handler` calls with the same kind and
a field-for-field-identical context return the identical cached handler
(same id), and a third call with one context field changed returns a
different handler, from any well-formed factory state. -/
theorem C1_handler_cache_identity (k : String) (ctx ctx' : AzureCtx) (s s1 s2 s3 : FactoryState)
    (h1 h2 h3 : Nat) (wf : FactoryWF s)
    (e1 : get_resource_handler k ctx s = .ok (h1, s1))
    (e2 : get_resource_handler k ctx s1 = .ok (h2, s2))
    (e3 : get_resource_handler k ctx' s2 = .ok (h3, s3))
    (hne : ctx ≠ ctx') :
    h1 = h2 ∧ h3 ≠ h1 := by
  have hf1 : findCache (_make_cache_key k (_extract_context_values ctx)) s1.cache =
      some h1 := grh_ok_find e1
  have e2' := grh_hit hf1
  rw [e2'] at e2
  have hinj := Except.ok.inj e2
  have hh : h1 = h2 := congrArg Prod.fst hinj
  have hss : s1 = s2 := congrArg Prod.snd hinj
  have wf1 : FactoryWF s1 := WF_preserve wf e1
  have hkey : _make_cache_key k (_extract_context_values ctx) ≠
      _make_cache_key k (_extract_context_values ctx') :=
    fun hkk => hne (cache_key_inj hkk).2
  refine ⟨hh, ?_⟩
  rw [← hss] at e3
  rcases grh_ok_cases e3 with ⟨hf3, _⟩ | ⟨_, hh3, _, _, _⟩
  · exact Ne.symm (findCache_inj_values wf1.2.1 hf1 hf3 hkey)
  · have hlt : h1 < s1.nextId := wf1.1 _ (findCache_entry hf1)
    omega

/-- Witness for C1: concrete keyvault runs from the empty cache. -/
theorem C1_handler_cache_identity_witness :
    get_resource_handler "keyvault" c1CtxA factoryInit = .ok (0, c1S1) ∧
    ((0 : Nat) = 0 ∧ (1 : Nat) ≠ 0) :=
  ⟨by decide,
   C1_handler_cache_identity "keyvault" c1CtxA c1CtxB factoryInit c1S1 c1S1 c1S3 0 0 1 (by decide)
     (by decide) (by decide) (by decide) (by decide)⟩

/-- C8: from a well-formed state, `get_resource_handler` fails with
`UnknownHandlerKind` iff the kind is not one of the nine registered kinds,
fails with `MissingParameter` iff the kind is `batch.pool` and the context
has no non-empty `pool_name`, and succeeds whenever the kind is registered
and the `batch.pool` requirement is met. -/
theorem C8_factory_error_taxonomy (k : String) (ctx : AzureCtx) (s : FactoryState)
    (wf : FactoryWF s) :
    (get_resource_handler k ctx s = .error .unknownHandlerKind ↔
      k ∉ registeredKeys) ∧
    (get_resource_handler k ctx s = .error .missingParameter ↔
      (k = "batch.pool" ∧ truthyS ctx.pool_name = false)) ∧
    ((k ∈ registeredKeys ∧ (k = "batch.pool" → truthyS ctx.pool_name = true)) →
      ∃ h s', get_resource_handler k ctx s = .ok (h, s')) ∧
    registeredKeys.length = 9 :=
  ⟨grh_error_unknown wf, grh_error_missing wf,
   fun hc => grh_ok_total s hc.1 hc.2, rfl⟩

/-- Witness for C8: concrete unknown-kind and missing-pool-name calls. -/
theorem C8_factory_error_taxonomy_witness :
    FactoryWF factoryInit ∧
    get_resource_handler "blob" ⟨none, none, none, none, none⟩ factoryInit =
      .error .unknownHandlerKind ∧
    get_resource_handler "batch.pool" ⟨some "s", none, some "g", some "b", some ""⟩
      factoryInit = .error .missingParameter :=
  ⟨by decide,
   (C8_factory_error_taxonomy "blob" ⟨none, none, none, none, none⟩ factoryInit (by decide)).1.mpr
     (by decide),
   (C8_factory_error_taxonomy "batch.pool" ⟨some "s", none, some "g", some "b", some ""⟩ factoryInit
     (by decide)).2.1.mpr ⟨rfl, by decide⟩⟩

/-- C6 counterexample: the cache key is built from ALL non-null context
fields, so adding a `pool_name` — irrelevant to the `keyvault` kind — to an
otherwise identical context changes the keyvault cache key and causes a
second, distinct handler to be constructed. -/
theorem C6_counterexample :
    _make_cache_key "keyvault" (_extract_context_values c6CtxNoPool) ≠
      _make_cache_key "keyvault" (_extract_context_values c6CtxPool) ∧
    get_resource_handler "keyvault" c6CtxNoPool factoryInit = .ok (0, c6S1) ∧
    get_resource_handler "keyvault" c6CtxPool c6S1 = .ok (1, c6S2) ∧
    (1 : Nat) ≠ 0 := by decide

/-- C6 amended: the cache key is the kind tag plus the sorted key/value
pairs of ALL non-null context fields, with no per-kind relevance filter:
any change to any context field (relevant to the kind or not) changes the
cache key and causes a new handler to be constructed. -/
theorem C6_cache_key_all_fields (k : String) (ctx ctx' : AzureCtx) (s s1 s2 : FactoryState)
    (h1 h2 : Nat) (wf : FactoryWF s) (hne : ctx ≠ ctx')
    (e1 : get_resource_handler k ctx s = .ok (h1, s1))
    (e2 : get_resource_handler k ctx' s1 = .ok (h2, s2)) :
    _make_cache_key k (_extract_context_values ctx) ≠
      _make_cache_key k (_extract_context_values ctx') ∧ h2 ≠ h1 := by
  have hkey : _make_cache_key k (_extract_context_values ctx) ≠
      _make_cache_key k (_extract_context_values ctx') :=
    fun hkk => hne (cache_key_inj hkk).2
  have hf1 := grh_ok_find e1
  have wf1 := WF_preserve wf e1
  refine ⟨hkey, ?_⟩
  rcases grh_ok_cases e2 with ⟨hf2, _⟩ | ⟨_, hh2, _, _, _⟩
  · exact findCache_inj_values wf1.2.1 hf2 hf1 (Ne.symm hkey)
  · have hlt : h1 < s1.nextId := wf1.1 _ (findCache_entry hf1)
    omega

/-- Witness for C6 at the concrete keyvault/pool-name runs. -/
theorem C6_cache_key_all_fields_witness :
    get_resource_handler "keyvault" c6CtxPool c6S1 = .ok (1, c6S2) ∧
    (_make_cache_key "keyvault" (_extract_context_values c6CtxNoPool) ≠
      _make_cache_key "keyvault" (_extract_context_values c6CtxPool) ∧
     (1 : Nat) ≠ 0) :=
  ⟨by decide,
   C6_cache_key_all_fields "keyvault" c6CtxNoPool c6CtxPool factoryInit c6S1 c6S2 0 1
     (by decide) (by decide) (by decide) (by decide)⟩

/-- Witness for C3: a second call inside the validity window is served from
cache with the same token. -/
theorem C3_token_cache_witness :
    (100 : Int) < (4000 : Int) - 300 ∧
    ((get_token (get_token authInit 0 ⟨"a", 4000⟩).2.1 100 ⟨"b", 9⟩).2.2 = false ∧
     (get_token (get_token authInit 0 ⟨"a", 4000⟩).2.1 100 ⟨"b", 9⟩).1 = "a") :=
  ⟨by decide, (C3_token_cache 0 100 ⟨"a", 4000⟩ ⟨"b", 9⟩).2.1 (by decide)⟩

/-- Witness for C4: a generic skip phrase passes with `exists = true` and no
verification call. -/
theorem C4_guardrail_gate_witness :
    (resource_group_guardrail azureCtxConfigInit "list all subscriptions"
      c5DemoVerdict).2.2 = 0 ∧
    (resource_group_guardrail azureCtxConfigInit "list all subscriptions"
      c5DemoVerdict).1.output_info.resource_group_exists = true :=
  ⟨by decide,
   ((C4_guardrail_gate azureCtxConfigInit "list all subscriptions"
      c5DemoVerdict).2.2 (by decide)).1⟩

/-- Witness for C9: identical names give identical filter answers. -/
theorem C9_tool_filter_witness :
    (Tool.mk "abc-storage-blob" "d1").name = (Tool.mk "abc-storage-blob" "d2").name ∧
    allow_tools ⟨"agent1"⟩ ⟨"abc-storage-blob", "d1"⟩ =
      allow_tools ⟨"agent2"⟩ ⟨"abc-storage-blob", "d2"⟩ :=
  ⟨rfl, ((C9_tool_filter ⟨"agent1"⟩ ⟨"agent2"⟩ ⟨"abc-storage-blob", "d1"⟩
      ⟨"abc-storage-blob", "d2"⟩).1 rfl).1⟩
